import Mathlib

/-!
Verification of the wake-word speech-to-text session logic
(`stt_module.py` / `config.py`).

The Python module is a two-state (idle/active) session machine:
while idle, each incoming audio frame is fed to a wake-word detector;
on detection the session activates with a cleared buffer.  While
active, frames are appended to a buffer; when the buffered duration
(frame count × frame duration) reaches a threshold the buffer is
flushed: it is concatenated, cleared, length-checked, transcribed by
an ASR engine, checked for the sleep word (deactivating on a hit) and
delivered to an optional transcript sink.

External effects (the Porcupine keyword spotter, the Whisper ASR
model, the transcript callback and the printed log lines) are made
explicit: the two models are environment-supplied functions that can
fail (`Except`), and observable actions are recorded in an event
trace.
-/

namespace STT

/-! ### Configuration (`config.py`) -/

def SAMPLE_RATE : ℕ := 16000

def CHUNK_SIZE : ℕ := 512

def SLEEP_WORD : String := "bye"

/-- `REALTIME_CHUNK_DURATION = 2` seconds: flush threshold. -/
def REALTIME_CHUNK_DURATION : ℚ := 2

/-- `MIN_AUDIO_LENGTH = 0.5` seconds: minimum audio length to transcribe. -/
def MIN_AUDIO_LENGTH : ℚ := 1 / 2

/-! ### Data model -/

/-- A PCM frame: a chunk of int16 samples (one `bytes` object in the
Python code holds two bytes per sample; we keep the samples and count
bytes as `2 * length`). -/
abbrev Frame := List ℤ

/-- The Porcupine engine as seen by `detect_wake_word`: a frame length
and a `process` call that may raise (`Except.error`) or return a
keyword index. -/
structure PorcupineEngine where
  frame_length : ℕ
  process : List ℤ → Except String ℤ

/-- The environment: the optional wake-word engine (`self.porcupine`),
the Whisper model's `transcribe` call (which may raise), and whether a
transcript sink (`self.on_transcript`) was supplied. -/
structure Env where
  porcupine : Option PorcupineEngine
  whisper : List ℤ → Except String String
  on_transcript : Bool

/-- The mutable session state: `self.is_active` and
`self.audio_buffer`. -/
structure Session where
  is_active : Bool
  audio_buffer : List Frame
deriving Repr, DecidableEq

/-- The session as constructed by `__init__`: inactive, empty buffer. -/
def initialSession : Session := { is_active := false, audio_buffer := [] }

/-- Observable actions of one step, in order of occurrence. -/
inductive Event where
  | flushCall
  | asrCall
  | activated
  | deactivated
  | transcript (text : String)
deriving Repr, DecidableEq

/-! ### Wake-word detector (`_init_porcupine`, `detect_wake_word`) -/

/-- `_init_porcupine`: wraps `pvporcupine.create`.  On failure the
engine is set to `None` and two warning lines are printed (returned
here as the second component); construction itself never fails. -/
def init_porcupine (create_result : Except String PorcupineEngine) :
    Option PorcupineEngine × List String :=
  match create_result with
  | .ok p => (some p, [])
  | .error e =>
      (none,
       ["Warning: Could not initialize Porcupine: " ++ e,
        "Wake word detection will be disabled. Use manual activation."])

/-- `detect_wake_word`: returns `false` when the engine is absent;
otherwise truncates the frame to `frame_length` and asks the engine,
treating a raised exception or a short frame as "not detected". -/
def detect_wake_word (porcupine : Option PorcupineEngine)
    (audio_chunk : Frame) : Bool :=
  match porcupine with
  | none => false
  | some p =>
      if p.frame_length ≤ audio_chunk.length then
        match p.process (audio_chunk.take p.frame_length) with
        | .ok keyword_index => decide (0 ≤ keyword_index)
        | .error _ => false
      else false

/-! ### Sleep-word check and transcription -/

/-- Python `str.lower()` on ASCII text: lowercase every character. -/
def strLower (s : String) : String := ⟨s.data.map Char.toLower⟩

/-- Python `str.strip()`: drop whitespace from both ends. -/
def strStrip (s : String) : String :=
  ⟨((s.data.dropWhile Char.isWhitespace).reverse.dropWhile
      Char.isWhitespace).reverse⟩

/-- Python substring containment `needle in haystack`. -/
def strContainsSub (haystack needle : String) : Bool :=
  decide (needle.data <:+: haystack.data)

/-- `detect_sleep_word`: `config.SLEEP_WORD.lower() in text.lower()`. -/
def detect_sleep_word (text : String) : Bool :=
  strContainsSub (strLower text) (strLower SLEEP_WORD)

/-- `transcribe_audio`: runs the Whisper model on the concatenated
samples; a raised exception yields `none`, a successful result is
trimmed and an empty result collapses to `none`. -/
def transcribe_audio (whisper : List ℤ → Except String String)
    (audio_data : List ℤ) : Option String :=
  match whisper audio_data with
  | .ok result =>
      let text := strStrip result
      if text = "" then none else some text
  | .error _ => none

/-! ### State transitions (`activate`, `deactivate`, `_process_buffer`,
`process_audio_chunk`) -/

/-- `activate`: set active, clear the buffer. -/
def activate (_s : Session) : Session × List Event :=
  ({ is_active := true, audio_buffer := [] }, [.activated])

/-- `deactivate`: set inactive, clear the buffer. -/
def deactivate (_s : Session) : Session × List Event :=
  ({ is_active := false, audio_buffer := [] }, [.deactivated])

/-- `_process_buffer`: if the buffer is empty, return.  Otherwise join
the buffered frames, clear the buffer, skip when the joined data is
shorter than `MIN_AUDIO_LENGTH` seconds, else transcribe; on a
transcript, deactivate if it holds the sleep word, then deliver it to
the sink if one is set.  The call itself is recorded as
`Event.flushCall`; reaching the transcription call as `Event.asrCall`. -/
def process_buffer (env : Env) (s : Session) : Session × List Event :=
  if s.audio_buffer = [] then (s, [.flushCall])
  else
    let audio_data := s.audio_buffer.flatten
    let s1 : Session := { s with audio_buffer := [] }
    let duration : ℚ := (2 * audio_data.length : ℚ) / (SAMPLE_RATE * 2)
    if duration < MIN_AUDIO_LENGTH then (s1, [.flushCall])
    else
      match transcribe_audio env.whisper audio_data with
      | none => (s1, [.flushCall, .asrCall])
      | some text =>
          let step :=
            if detect_sleep_word text then deactivate s1 else (s1, [])
          let sink : List Event :=
            if env.on_transcript then [.transcript text] else []
          (step.1, [.flushCall, .asrCall] ++ step.2 ++ sink)

/-- `process_audio_chunk`: while inactive, run the wake-word detector
and activate on a hit; while active, append the frame and flush when
the buffered duration (`len(buffer) * CHUNK_SIZE / SAMPLE_RATE`)
reaches `REALTIME_CHUNK_DURATION`. -/
def process_audio_chunk (env : Env) (s : Session) (audio_chunk : Frame) :
    Session × List Event :=
  if ¬ s.is_active then
    if detect_wake_word env.porcupine audio_chunk then activate s
    else (s, [])
  else
    let s1 : Session := { s with audio_buffer := s.audio_buffer ++ [audio_chunk] }
    let buffer_duration : ℚ :=
      (s1.audio_buffer.length * CHUNK_SIZE : ℚ) / SAMPLE_RATE
    if REALTIME_CHUNK_DURATION ≤ buffer_duration then process_buffer env s1
    else (s1, [])

/-- Run the listening loop over a list of frames, accumulating the
event trace (`run` in the Python code, minus the device I/O). -/
def runFrames (env : Env) (s : Session) (frames : List Frame) :
    Session × List Event :=
  match frames with
  | [] => (s, [])
  | c :: rest =>
      let step := process_audio_chunk env s c
      let tail := runFrames env step.1 rest
      (tail.1, step.2 ++ tail.2)

/-! ### Characterization of the two duration guards

`decide` cannot reduce rational division, so the two `ℚ`-valued guards
are characterized by natural-number inequalities once and for all:
the flush guard `2 ≤ n * 512 / 16000` holds iff `63 ≤ n`, and the
minimum-length guard `2L / 32000 < 1/2` holds iff `L < 8000`. -/

lemma flush_threshold_iff (n : ℕ) :
    REALTIME_CHUNK_DURATION ≤ ((n : ℚ) * (CHUNK_SIZE : ℕ)) / ((SAMPLE_RATE : ℕ) : ℚ) ↔
      63 ≤ n := by
  rw [REALTIME_CHUNK_DURATION, CHUNK_SIZE, SAMPLE_RATE]
  rw [le_div_iff₀ (by norm_num : (0:ℚ) < ((16000:ℕ) : ℚ))]
  push_cast
  constructor
  · intro h
    by_contra hc
    push_neg at hc
    have : (n : ℚ) ≤ 62 := by exact_mod_cast Nat.lt_succ_iff.mp hc
    nlinarith
  · intro h
    have : (63 : ℚ) ≤ (n : ℚ) := by exact_mod_cast h
    nlinarith

lemma min_length_iff (L : ℕ) :
    2 * (L : ℚ) / (((SAMPLE_RATE : ℕ) : ℚ) * 2) < MIN_AUDIO_LENGTH ↔ L < 8000 := by
  rw [MIN_AUDIO_LENGTH, SAMPLE_RATE]
  rw [div_lt_iff₀ (by norm_num : (0:ℚ) < ((16000:ℕ):ℚ) * 2)]
  constructor
  · intro h
    by_contra hc
    push_neg at hc
    have : (8000 : ℚ) ≤ (L : ℚ) := by exact_mod_cast hc
    nlinarith
  · intro h
    have : (L : ℚ) < 8000 := by exact_mod_cast h
    nlinarith

/-! ### Branch lemmas for `process_buffer` and `process_audio_chunk` -/

lemma process_buffer_of_empty (env : Env) (s : Session) (h : s.audio_buffer = []) :
    process_buffer env s = (s, [.flushCall]) := by
  rw [process_buffer, if_pos h]

lemma process_buffer_of_short (env : Env) (s : Session) (h : s.audio_buffer ≠ [])
    (hlen : s.audio_buffer.flatten.length < 8000) :
    process_buffer env s = ({ s with audio_buffer := [] }, [.flushCall]) := by
  rw [process_buffer, if_neg h]
  simp only []
  rw [if_pos]
  rw [min_length_iff]
  exact hlen

lemma process_buffer_of_none (env : Env) (s : Session) (h : s.audio_buffer ≠ [])
    (hlen : 8000 ≤ s.audio_buffer.flatten.length)
    (ht : transcribe_audio env.whisper s.audio_buffer.flatten = none) :
    process_buffer env s = ({ s with audio_buffer := [] }, [.flushCall, .asrCall]) := by
  rw [process_buffer, if_neg h]
  simp only []
  rw [if_neg, ht]
  rw [min_length_iff]
  omega

lemma process_buffer_of_some (env : Env) (s : Session) (text : String)
    (h : s.audio_buffer ≠ [])
    (hlen : 8000 ≤ s.audio_buffer.flatten.length)
    (ht : transcribe_audio env.whisper s.audio_buffer.flatten = some text) :
    process_buffer env s =
      (if detect_sleep_word text then { is_active := false, audio_buffer := [] }
       else { s with audio_buffer := [] },
       [.flushCall, .asrCall] ++
         (if detect_sleep_word text then [.deactivated] else []) ++
         (if env.on_transcript then [.transcript text] else [])) := by
  rw [process_buffer, if_neg h]
  simp only []
  rw [if_neg, ht]
  · by_cases hs : detect_sleep_word text <;> simp [hs, deactivate]
  · rw [min_length_iff]; omega

lemma process_audio_chunk_idle_nodetect (env : Env) (s : Session) (c : Frame)
    (h : s.is_active = false) (hd : detect_wake_word env.porcupine c = false) :
    process_audio_chunk env s c = (s, []) := by
  rw [process_audio_chunk, if_pos (by simp [h]), hd]
  simp

lemma process_audio_chunk_idle_detect (env : Env) (s : Session) (c : Frame)
    (h : s.is_active = false) (hd : detect_wake_word env.porcupine c = true) :
    process_audio_chunk env s c =
      ({ is_active := true, audio_buffer := [] }, [.activated]) := by
  rw [process_audio_chunk, if_pos (by simp [h]), hd]
  simp [activate]

lemma process_audio_chunk_active_noflush (env : Env) (s : Session) (c : Frame)
    (h : s.is_active = true) (hn : s.audio_buffer.length + 1 < 63) :
    process_audio_chunk env s c =
      ({ s with audio_buffer := s.audio_buffer ++ [c] }, []) := by
  rw [process_audio_chunk, if_neg (by simp [h])]
  simp only []
  rw [if_neg]
  intro hc
  rw [flush_threshold_iff] at hc
  simp at hc
  omega

lemma process_audio_chunk_active_flush (env : Env) (s : Session) (c : Frame)
    (h : s.is_active = true) (hn : 63 ≤ s.audio_buffer.length + 1) :
    process_audio_chunk env s c =
      process_buffer env { s with audio_buffer := s.audio_buffer ++ [c] } := by
  rw [process_audio_chunk, if_neg (by simp [h])]
  simp only []
  rw [if_pos]
  rw [flush_threshold_iff]
  simp
  omega

/-! ### Generic consequences of a flush -/

/-- A flush of a non-empty buffer always leaves the buffer empty. -/
lemma process_buffer_clears (env : Env) (s : Session) (h : s.audio_buffer ≠ []) :
    (process_buffer env s).1.audio_buffer = [] := by
  by_cases hlen : s.audio_buffer.flatten.length < 8000
  · rw [process_buffer_of_short env s h hlen]
  · push_neg at hlen
    cases ht : transcribe_audio env.whisper s.audio_buffer.flatten with
    | none => rw [process_buffer_of_none env s h hlen ht]
    | some text =>
        rw [process_buffer_of_some env s text h hlen ht]
        by_cases hs : detect_sleep_word text <;> simp [hs]

/-- Every invocation of a flush records exactly one `flushCall` event. -/
lemma process_buffer_flush_count (env : Env) (s : Session) :
    ((process_buffer env s).2).count Event.flushCall = 1 := by
  by_cases h : s.audio_buffer = []
  · rw [process_buffer_of_empty env s h]; rfl
  · by_cases hlen : s.audio_buffer.flatten.length < 8000
    · rw [process_buffer_of_short env s h hlen]; rfl
    · push_neg at hlen
      cases ht : transcribe_audio env.whisper s.audio_buffer.flatten with
      | none => rw [process_buffer_of_none env s h hlen ht]; rfl
      | some text =>
          rw [process_buffer_of_some env s text h hlen ht]
          by_cases hs : detect_sleep_word text <;>
            by_cases ho : env.on_transcript <;>
              simp [hs, ho, List.count_append, List.count_cons]

/-- A flush of a buffer of at least 8000 samples reaches the ASR call. -/
lemma process_buffer_asr_mem (env : Env) (s : Session) (h : s.audio_buffer ≠ [])
    (hlen : 8000 ≤ s.audio_buffer.flatten.length) :
    Event.asrCall ∈ (process_buffer env s).2 := by
  cases ht : transcribe_audio env.whisper s.audio_buffer.flatten with
  | none => rw [process_buffer_of_none env s h hlen ht]; simp
  | some text =>
      rw [process_buffer_of_some env s text h hlen ht]
      simp

/-- A raised ASR exception is collapsed to `none`. -/
lemma transcribe_audio_error (whisper : List ℤ → Except String String)
    (audio_data : List ℤ) (msg : String) (hw : whisper audio_data = .error msg) :
    transcribe_audio whisper audio_data = none := by
  rw [transcribe_audio, hw]

/-! ### Lemmas about the listening loop -/

lemma runFrames_cons (env : Env) (s : Session) (c : Frame) (rest : List Frame) :
    runFrames env s (c :: rest) =
      ((runFrames env (process_audio_chunk env s c).1 rest).1,
       (process_audio_chunk env s c).2 ++
         (runFrames env (process_audio_chunk env s c).1 rest).2) := rfl

/-- One step preserves the invariant "idle implies empty buffer". -/
lemma process_audio_chunk_inv (env : Env) (s : Session) (c : Frame)
    (h : s.is_active = false → s.audio_buffer = []) :
    (process_audio_chunk env s c).1.is_active = false →
    (process_audio_chunk env s c).1.audio_buffer = [] := by
  cases ha : s.is_active with
  | false =>
      cases hd : detect_wake_word env.porcupine c with
      | false => rw [process_audio_chunk_idle_nodetect env s c ha hd]; exact h
      | true => rw [process_audio_chunk_idle_detect env s c ha hd]; simp
  | true =>
      by_cases hn : s.audio_buffer.length + 1 < 63
      · rw [process_audio_chunk_active_noflush env s c ha hn]
        simp [ha]
      · push_neg at hn
        rw [process_audio_chunk_active_flush env s c ha hn]
        intro
        exact process_buffer_clears _ _ (by simp)

lemma runFrames_inv (env : Env) (frames : List Frame) (s : Session)
    (h : s.is_active = false → s.audio_buffer = []) :
    (runFrames env s frames).1.is_active = false →
    (runFrames env s frames).1.audio_buffer = [] := by
  induction frames generalizing s with
  | nil => simpa [runFrames]
  | cons c rest ih =>
      rw [runFrames_cons]
      exact ih _ (process_audio_chunk_inv env s c h)

lemma runFrames_idle (env : Env) (frames : List Frame)
    (h : ∀ c ∈ frames, detect_wake_word env.porcupine c = false) :
    runFrames env initialSession frames = (initialSession, []) := by
  induction frames with
  | nil => rfl
  | cons c rest ih =>
      rw [runFrames_cons,
        process_audio_chunk_idle_nodetect env initialSession c rfl (h c (by simp))]
      rw [ih (fun x hx => h x (by simp [hx]))]
      rfl

/-- While active and below the flush threshold, frames accumulate and
no events are produced. -/
lemma runFrames_accumulate (env : Env) (frames : List Frame) (s : Session)
    (ha : s.is_active = true)
    (hn : s.audio_buffer.length + frames.length < 63) :
    runFrames env s frames =
      ({ s with audio_buffer := s.audio_buffer ++ frames }, []) := by
  induction frames generalizing s with
  | nil => simp [runFrames]
  | cons c rest ih =>
      rw [runFrames_cons,
        process_audio_chunk_active_noflush env s c ha (by simp at hn; omega)]
      rw [ih _ (by simp [ha]) (by simp at hn ⊢; omega)]
      simp

/-- A list of frames of uniform length flattens to `count * length`
samples. -/
lemma flatten_length_uniform (l : List Frame) (k : ℕ)
    (h : ∀ f ∈ l, f.length = k) : l.flatten.length = l.length * k := by
  induction l with
  | nil => simp
  | cons f rest ih =>
      simp only [List.flatten_cons, List.length_append, List.length_cons,
        h f (by simp), ih (fun g hg => h g (by simp [hg]))]
      ring

/-- A joined buffer of at least 32000 samples lasts at least the
two-second flush threshold. -/
lemma actual_duration_ge (L : ℕ) (h : 32000 ≤ L) :
    REALTIME_CHUNK_DURATION ≤ 2 * ((L : ℕ) : ℚ) / (((SAMPLE_RATE : ℕ) : ℚ) * 2) := by
  rw [REALTIME_CHUNK_DURATION, SAMPLE_RATE, le_div_iff₀ (by norm_num)]
  have hc : (32000 : ℚ) ≤ (L : ℚ) := by exact_mod_cast h
  push_cast
  nlinarith

/-! ### The claims -/

/-- C1, counterexample to the claim as stated: a one-sample buffered
frame is below `MIN_AUDIO_LENGTH`, yet after the flush check the
buffer is empty — the frame was discarded, not kept buffered for the
next check. -/
theorem c1_counterexample :
    (2 * ((([[(0:ℤ)]] : List Frame).flatten.length : ℕ) : ℚ) /
        (((SAMPLE_RATE : ℕ) : ℚ) * 2) < MIN_AUDIO_LENGTH) ∧
    ([[(0:ℤ)]] : List Frame) ≠ [] ∧
    (process_buffer ⟨none, fun _ => Except.error "down", true⟩
        { is_active := true, audio_buffer := [[(0:ℤ)]] }).1.audio_buffer = [] := by
  refine ⟨?_, by simp, ?_⟩
  · rw [min_length_iff]; simp
  · rw [process_buffer_of_short _ _ (by simp) (by simp)]

/-- C1 (amended): when, at a flush check, the accumulated duration is
below `MIN_AUDIO_LENGTH`, no ASR call is made and no transcript is
produced, but the buffered frames are discarded — the buffer is
cleared, not retained. -/
theorem c1_short_flush (env : Env) (s : Session)
    (h : s.audio_buffer ≠ [])
    (hshort : 2 * ((s.audio_buffer.flatten.length : ℕ) : ℚ) /
        (((SAMPLE_RATE : ℕ) : ℚ) * 2) < MIN_AUDIO_LENGTH) :
    Event.asrCall ∉ (process_buffer env s).2 ∧
    (∀ t, Event.transcript t ∉ (process_buffer env s).2) ∧
    (process_buffer env s).1 = { s with audio_buffer := [] } := by
  rw [process_buffer_of_short env s h ((min_length_iff _).mp hshort)]
  simp

/-- C1, witness: `c1_short_flush` at a concrete one-sample buffer. -/
theorem c1_witness :
    Event.asrCall ∉ (process_buffer ⟨none, fun _ => Except.error "down", true⟩
        { is_active := true, audio_buffer := [[(0:ℤ)]] }).2 ∧
    (∀ t, Event.transcript t ∉ (process_buffer ⟨none, fun _ => Except.error "down", true⟩
        { is_active := true, audio_buffer := [[(0:ℤ)]] }).2) ∧
    (process_buffer ⟨none, fun _ => Except.error "down", true⟩
        { is_active := true, audio_buffer := [[(0:ℤ)]] }).1 =
      { is_active := true, audio_buffer := [] } :=
  c1_short_flush _ _ (by simp) ((min_length_iff _).mpr (by simp))

/-- C2: for an active session, a frame whose arrival brings the
buffered duration (frame count × frame duration) to or past
`REALTIME_CHUNK_DURATION` causes exactly one flush call, with the
buffer empty immediately after; below the threshold no flush call
occurs. -/
theorem c2_threshold_flush (env : Env) (s : Session) (c : Frame)
    (ha : s.is_active = true) :
    (REALTIME_CHUNK_DURATION ≤
        (((s.audio_buffer.length + 1 : ℕ) : ℚ) * (CHUNK_SIZE : ℕ)) /
          ((SAMPLE_RATE : ℕ) : ℚ) →
      ((process_audio_chunk env s c).2).count Event.flushCall = 1 ∧
      (process_audio_chunk env s c).1.audio_buffer = []) ∧
    (¬ REALTIME_CHUNK_DURATION ≤
        (((s.audio_buffer.length + 1 : ℕ) : ℚ) * (CHUNK_SIZE : ℕ)) /
          ((SAMPLE_RATE : ℕ) : ℚ) →
      ((process_audio_chunk env s c).2).count Event.flushCall = 0) := by
  constructor
  · intro hth
    have h63 : 63 ≤ s.audio_buffer.length + 1 := (flush_threshold_iff _).mp hth
    rw [process_audio_chunk_active_flush env s c ha h63]
    exact ⟨process_buffer_flush_count _ _, process_buffer_clears _ _ (by simp)⟩
  · intro hth
    have hlt : s.audio_buffer.length + 1 < 63 := by
      rw [flush_threshold_iff] at hth
      omega
    rw [process_audio_chunk_active_noflush env s c ha hlt]
    rfl

/-- C2, witness: the 63rd frame crosses the threshold, yielding one
flush call and an empty buffer. -/
theorem c2_witness :
    ((process_audio_chunk ⟨none, fun _ => Except.error "x", false⟩
        { is_active := true, audio_buffer := List.replicate 62 ([] : Frame) }
        ([] : Frame)).2).count Event.flushCall = 1 ∧
    (process_audio_chunk ⟨none, fun _ => Except.error "x", false⟩
        { is_active := true, audio_buffer := List.replicate 62 ([] : Frame) }
        ([] : Frame)).1.audio_buffer = [] :=
  (c2_threshold_flush _ _ _ rfl).1 ((flush_threshold_iff _).mpr (by simp))

/-- C3: after any frame sequence from the initial session, the buffer
is non-empty only while active (idle implies empty buffer); and if
the wake-word detector never fires, the session remains idle with an
empty buffer and no events. -/
theorem c3_idle_invariant (env : Env) (frames : List Frame) :
    ((runFrames env initialSession frames).1.is_active = false →
      (runFrames env initialSession frames).1.audio_buffer = []) ∧
    ((∀ c ∈ frames, detect_wake_word env.porcupine c = false) →
      runFrames env initialSession frames = (initialSession, [])) :=
  ⟨runFrames_inv env frames initialSession (fun _ => rfl),
   runFrames_idle env frames⟩

/-- C3, witness: with no wake-word engine, three frames leave the
session idle and the buffer empty. -/
theorem c3_witness :
    runFrames ⟨none, fun _ => Except.error "x", false⟩ initialSession
      [[(1:ℤ)], [(2:ℤ)], [(3:ℤ)]] = (initialSession, []) :=
  (c3_idle_invariant _ _).2 (fun _ _ => rfl)

/-- C4: when a flush produces a transcript, the sleep word occurring
as a case-insensitive substring sends the session to idle with the
buffer cleared; a transcript lacking it leaves the session active
(buffer cleared either way). -/
theorem c4_sleep_word (env : Env) (s : Session) (text : String)
    (ha : s.is_active = true)
    (h : s.audio_buffer ≠ [])
    (hlen : ¬ (2 * ((s.audio_buffer.flatten.length : ℕ) : ℚ) /
        (((SAMPLE_RATE : ℕ) : ℚ) * 2) < MIN_AUDIO_LENGTH))
    (ht : transcribe_audio env.whisper s.audio_buffer.flatten = some text) :
    ((strLower SLEEP_WORD).data <:+: (strLower text).data →
      (process_buffer env s).1 = { is_active := false, audio_buffer := [] }) ∧
    (¬ (strLower SLEEP_WORD).data <:+: (strLower text).data →
      (process_buffer env s).1.is_active = true ∧
      (process_buffer env s).1.audio_buffer = []) := by
  have hlen8 : 8000 ≤ s.audio_buffer.flatten.length := by
    rw [min_length_iff] at hlen
    omega
  rw [process_buffer_of_some env s text h hlen8 ht]
  constructor
  · intro hocc
    have hs : detect_sleep_word text = true := by
      simp [detect_sleep_word, strContainsSub, hocc]
    simp [hs]
  · intro hocc
    have hs : detect_sleep_word text = false := by
      simp [detect_sleep_word, strContainsSub, hocc]
    simp [hs, ha]

/-- C4, witness: the transcript "Time to say ByE now" (mixed case)
deactivates a concrete active session. -/
theorem c4_witness :
    (process_buffer ⟨none, fun _ => Except.ok "Time to say ByE now", true⟩
        { is_active := true, audio_buffer := [List.replicate 8000 (0:ℤ)] }).1 =
      { is_active := false, audio_buffer := [] } :=
  (c4_sleep_word _ _ "Time to say ByE now" rfl (List.cons_ne_nil _ _)
      (fun hlt => absurd ((min_length_iff _).mp hlt)
        (by simp only [List.flatten_cons, List.flatten_nil, List.append_nil,
              List.length_replicate]; omega))
      (by decide)).1
    (by decide)

/-- C5: when the ASR engine raises during a flush that reached
transcription, the session keeps its activity state, the buffer is
empty after the flush, and no deactivation and no transcript event
occur. -/
theorem c5_asr_failure (env : Env) (s : Session) (msg : String)
    (h : s.audio_buffer ≠ [])
    (hlen : ¬ (2 * ((s.audio_buffer.flatten.length : ℕ) : ℚ) /
        (((SAMPLE_RATE : ℕ) : ℚ) * 2) < MIN_AUDIO_LENGTH))
    (hw : env.whisper s.audio_buffer.flatten = .error msg) :
    (process_buffer env s).1.is_active = s.is_active ∧
    (process_buffer env s).1.audio_buffer = [] ∧
    Event.deactivated ∉ (process_buffer env s).2 ∧
    (∀ t, Event.transcript t ∉ (process_buffer env s).2) := by
  have hlen8 : 8000 ≤ s.audio_buffer.flatten.length := by
    rw [min_length_iff] at hlen
    omega
  rw [process_buffer_of_none env s h hlen8 (transcribe_audio_error _ _ msg hw)]
  simp

/-- C5, witness: a crashing ASR engine at a concrete half-second
buffer leaves the session active with an empty buffer and no
transcript. -/
theorem c5_witness :
    (process_buffer ⟨none, fun _ => Except.error "model crashed", true⟩
        { is_active := true, audio_buffer := [List.replicate 8000 (0:ℤ)] }).1.is_active =
      true ∧
    (process_buffer ⟨none, fun _ => Except.error "model crashed", true⟩
        { is_active := true, audio_buffer := [List.replicate 8000 (0:ℤ)] }).1.audio_buffer =
      [] ∧
    Event.deactivated ∉ (process_buffer ⟨none, fun _ => Except.error "model crashed", true⟩
        { is_active := true, audio_buffer := [List.replicate 8000 (0:ℤ)] }).2 ∧
    (∀ t, Event.transcript t ∉
      (process_buffer ⟨none, fun _ => Except.error "model crashed", true⟩
        { is_active := true, audio_buffer := [List.replicate 8000 (0:ℤ)] }).2) :=
  c5_asr_failure _ _ "model crashed" (List.cons_ne_nil _ _)
    (fun hlt => absurd ((min_length_iff _).mp hlt)
      (by simp only [List.flatten_cons, List.flatten_nil, List.append_nil,
            List.length_replicate]; omega))
    rfl

/-- C6: a wake-word detection while idle activates the session with
an empty buffer, whatever the prior buffer contents. -/
theorem c6_wake_activates (env : Env) (s : Session) (c : Frame)
    (h : s.is_active = false) (hd : detect_wake_word env.porcupine c = true) :
    process_audio_chunk env s c =
      ({ is_active := true, audio_buffer := [] }, [.activated]) :=
  process_audio_chunk_idle_detect env s c h hd

/-- C6, witness: a concrete engine that reports keyword index 0
activates an idle session holding a stale buffer. -/
theorem c6_witness :
    process_audio_chunk
        ⟨some ⟨1, fun _ => Except.ok 0⟩, fun _ => Except.error "x", false⟩
        { is_active := false, audio_buffer := [[(7:ℤ)], [(8:ℤ)]] } [(1:ℤ)] =
      ({ is_active := true, audio_buffer := [] }, [.activated]) :=
  c6_wake_activates _ _ _ rfl (by decide)

/-- C7: a failed wake-word model initialization leaves the engine
absent with the two warning lines logged once, construction succeeds,
the detector returns false on every frame, and the session can never
activate. -/
theorem c7_init_failure (e : String) (env : Env) (hp : env.porcupine = none) :
    (init_porcupine (.error e)).1 = none ∧
    (init_porcupine (.error e)).2 =
      ["Warning: Could not initialize Porcupine: " ++ e,
       "Wake word detection will be disabled. Use manual activation."] ∧
    (∀ c, detect_wake_word env.porcupine c = false) ∧
    (∀ frames, runFrames env initialSession frames = (initialSession, [])) := by
  refine ⟨rfl, rfl, ?_, ?_⟩
  · intro c
    rw [hp]
    rfl
  · intro frames
    exact runFrames_idle env frames (fun c _ => by rw [hp]; rfl)

/-- C7, witness: `c7_init_failure` at a concrete failure message and
engine-less environment. -/
theorem c7_witness :
    (init_porcupine (.error "invalid access key")).1 = none ∧
    (init_porcupine (.error "invalid access key")).2 =
      ["Warning: Could not initialize Porcupine: " ++ "invalid access key",
       "Wake word detection will be disabled. Use manual activation."] ∧
    (∀ c, detect_wake_word
        (⟨none, fun _ => Except.error "x", false⟩ : Env).porcupine c = false) ∧
    (∀ frames, runFrames ⟨none, fun _ => Except.error "x", false⟩ initialSession frames =
      (initialSession, [])) :=
  c7_init_failure "invalid access key" _ rfl

/-- C8: 63 is the least frame count meeting the flush threshold
(n × 512 / 16000 ≥ 2), 62 frames after activation accumulate without
any flush, and the 63rd frame triggers exactly one flush call. -/
theorem c8_first_flush (env : Env) (frames : List Frame) (c : Frame)
    (h62 : frames.length = 62) :
    (REALTIME_CHUNK_DURATION ≤
      (((63 : ℕ) : ℚ) * (CHUNK_SIZE : ℕ)) / ((SAMPLE_RATE : ℕ) : ℚ)) ∧
    (∀ m : ℕ, m < 63 →
      ¬ REALTIME_CHUNK_DURATION ≤
          ((m : ℚ) * (CHUNK_SIZE : ℕ)) / ((SAMPLE_RATE : ℕ) : ℚ)) ∧
    runFrames env { is_active := true, audio_buffer := [] } frames =
      ({ is_active := true, audio_buffer := frames }, []) ∧
    ((process_audio_chunk env { is_active := true, audio_buffer := frames } c).2).count
        Event.flushCall = 1 := by
  refine ⟨(flush_threshold_iff 63).mpr le_rfl, ?_, ?_, ?_⟩
  · intro m hm hle
    rw [flush_threshold_iff] at hle
    omega
  · have h := runFrames_accumulate env frames ⟨true, []⟩ rfl (by simp [h62])
    simpa using h
  · rw [process_audio_chunk_active_flush env _ c rfl (by simp [h62])]
    exact process_buffer_flush_count _ _

/-- C8, witness: `c8_first_flush` at 62 concrete buffered frames and
a 63rd arriving frame. -/
theorem c8_witness :
    (REALTIME_CHUNK_DURATION ≤
      (((63 : ℕ) : ℚ) * (CHUNK_SIZE : ℕ)) / ((SAMPLE_RATE : ℕ) : ℚ)) ∧
    (∀ m : ℕ, m < 63 →
      ¬ REALTIME_CHUNK_DURATION ≤
          ((m : ℚ) * (CHUNK_SIZE : ℕ)) / ((SAMPLE_RATE : ℕ) : ℚ)) ∧
    runFrames ⟨none, fun _ => Except.error "x", false⟩
        { is_active := true, audio_buffer := [] } (List.replicate 62 ([] : Frame)) =
      ({ is_active := true, audio_buffer := List.replicate 62 ([] : Frame) }, []) ∧
    ((process_audio_chunk ⟨none, fun _ => Except.error "x", false⟩
        { is_active := true, audio_buffer := List.replicate 62 ([] : Frame) }
        ([] : Frame)).2).count Event.flushCall = 1 :=
  c8_first_flush _ _ _ (by simp only [List.length_replicate])

/-- C9: a transcript produced by a flush, with a sink supplied, is
always delivered to the sink as the final event — in the sleep-word
case the deactivation precedes the delivery of that same
transcript. -/
theorem c9_sleep_transcript_delivered (env : Env) (s : Session) (text : String)
    (h : s.audio_buffer ≠ [])
    (hlen : ¬ (2 * ((s.audio_buffer.flatten.length : ℕ) : ℚ) /
        (((SAMPLE_RATE : ℕ) : ℚ) * 2) < MIN_AUDIO_LENGTH))
    (ht : transcribe_audio env.whisper s.audio_buffer.flatten = some text)
    (hsink : env.on_transcript = true) :
    (process_buffer env s).2 =
      [.flushCall, .asrCall] ++
        (if detect_sleep_word text then [.deactivated] else []) ++
        [.transcript text] ∧
    Event.transcript text ∈ (process_buffer env s).2 := by
  have hlen8 : 8000 ≤ s.audio_buffer.flatten.length := by
    rw [min_length_iff] at hlen
    omega
  rw [process_buffer_of_some env s text h hlen8 ht, hsink]
  refine ⟨by simp, ?_⟩
  by_cases hs : detect_sleep_word text <;> simp [hs]

/-- C9, witness: the sleep-word-bearing transcript "okay bye" is
delivered right after the deactivation event. -/
theorem c9_witness :
    (process_buffer ⟨none, fun _ => Except.ok "okay bye", true⟩
        { is_active := true, audio_buffer := [List.replicate 8000 (0:ℤ)] }).2 =
      [.flushCall, .asrCall, .deactivated, .transcript "okay bye"] := by
  have h := (c9_sleep_transcript_delivered
    ⟨none, fun _ => Except.ok "okay bye", true⟩
    { is_active := true, audio_buffer := [List.replicate 8000 (0:ℤ)] }
    "okay bye" (List.cons_ne_nil _ _)
    (fun hlt => absurd ((min_length_iff _).mp hlt)
      (by simp only [List.flatten_cons, List.flatten_nil, List.append_nil,
            List.length_replicate]; omega))
    (by decide) rfl).1
  rw [h]
  decide

/-- C10: under the precondition that every buffered frame holds
exactly `CHUNK_SIZE` samples, any frame whose arrival meets the flush
threshold yields an actual duration of at least
`REALTIME_CHUNK_DURATION`, which exceeds `MIN_AUDIO_LENGTH`, so the
triggered flush reaches the ASR call — the sub-minimum skip branch is
unreachable from the listening loop. -/
theorem c10_flush_reaches_asr (env : Env) (s : Session) (c : Frame)
    (ha : s.is_active = true)
    (huniform : ∀ f ∈ s.audio_buffer ++ [c], f.length = CHUNK_SIZE)
    (hth : REALTIME_CHUNK_DURATION ≤
        (((s.audio_buffer.length + 1 : ℕ) : ℚ) * (CHUNK_SIZE : ℕ)) /
          ((SAMPLE_RATE : ℕ) : ℚ)) :
    REALTIME_CHUNK_DURATION ≤
      2 * (((s.audio_buffer ++ [c]).flatten.length : ℕ) : ℚ) /
        (((SAMPLE_RATE : ℕ) : ℚ) * 2) ∧
    MIN_AUDIO_LENGTH < REALTIME_CHUNK_DURATION ∧
    Event.asrCall ∈ (process_audio_chunk env s c).2 := by
  have h63 : 63 ≤ s.audio_buffer.length + 1 := (flush_threshold_iff _).mp hth
  have hflat : (s.audio_buffer ++ [c]).flatten.length =
      (s.audio_buffer.length + 1) * CHUNK_SIZE := by
    rw [flatten_length_uniform _ _ huniform]
    simp
  refine ⟨?_, ?_, ?_⟩
  · apply actual_duration_ge
    rw [hflat, CHUNK_SIZE]
    nlinarith
  · rw [MIN_AUDIO_LENGTH, REALTIME_CHUNK_DURATION]
    norm_num
  · rw [process_audio_chunk_active_flush env s c ha h63]
    apply process_buffer_asr_mem _ _ (by simp)
    show 8000 ≤ (s.audio_buffer ++ [c]).flatten.length
    rw [hflat, CHUNK_SIZE]
    nlinarith

/-- C10, witness: 63 frames of exactly 512 samples trigger a flush
that reaches the ASR call. -/
theorem c10_witness :
    REALTIME_CHUNK_DURATION ≤
      2 * ((((List.replicate 62 (List.replicate 512 (0:ℤ)) ++
          [List.replicate 512 (0:ℤ)]).flatten.length : ℕ)) : ℚ) /
        (((SAMPLE_RATE : ℕ) : ℚ) * 2) ∧
    MIN_AUDIO_LENGTH < REALTIME_CHUNK_DURATION ∧
    Event.asrCall ∈ (process_audio_chunk ⟨none, fun _ => Except.error "x", false⟩
        { is_active := true,
          audio_buffer := List.replicate 62 (List.replicate 512 (0:ℤ)) }
        (List.replicate 512 (0:ℤ))).2 :=
  c10_flush_reaches_asr ⟨none, fun _ => Except.error "x", false⟩
    { is_active := true,
      audio_buffer := List.replicate 62 (List.replicate 512 (0:ℤ)) }
    (List.replicate 512 (0:ℤ)) rfl
    (by
      intro f hf
      simp only [List.mem_append, List.mem_replicate, List.mem_singleton] at hf
      rcases hf with hf | hf
      · rw [hf.2]; simp only [List.length_replicate, CHUNK_SIZE]
      · rw [hf]; simp only [List.length_replicate, CHUNK_SIZE])
    ((flush_threshold_iff _).mpr (by simp only [List.length_replicate]; omega))

end STT
